import Mathlib

/-!
Shallow embedding of the authorization core of the `ts-node-api-base`
repository: the token service (`src/services/auth.service.ts`), the
permission catalog (`PermissionService` in `src/services/role.service.ts`)
and the `authenticate` / `authorize` middleware pipeline
(`auth.middleware` document inside `src/middlewares/rateLimit.middleware.ts`).

Strings are modelled as `List Char` so that splitting and counting are
directly amenable to induction.  JavaScript string primitives used by the
source (`split`, `filter(Boolean)`, `startsWith`, `includes`) are given
explicit executable definitions below.
-/

/-- The model of JavaScript strings: a list of characters. -/
abbrev Str := List Char

/-- Literal helper: a JavaScript string literal as a `Str`. -/
def str (s : String) : Str := s.toList

/-- JavaScript `s.split(sep)` for a one-character separator: always returns
at least one (possibly empty) piece. -/
def jsSplit (sep : Char) : Str → List Str
  | [] => [[]]
  | c :: cs =>
    let r := jsSplit sep cs
    if c = sep then [] :: r
    else
      match r with
      | h :: t => (c :: h) :: t
      | [] => [[c]]

/-- JavaScript `s.split(sep).filter(Boolean)`: the nonempty pieces. -/
def nonEmptySegs (sep : Char) (s : Str) : List Str :=
  (jsSplit sep s).filter (fun seg => seg ≠ [])

/-- JavaScript `s.startsWith(p)`. -/
def strStartsWith (s p : Str) : Bool := p.isPrefixOf s

/-- JavaScript `s.includes(c)` for a single character. -/
def strContainsChar (s : Str) (c : Char) : Bool := decide (c ∈ s)

/-- JavaScript truthiness of an optional number (`undefined` and `0` are falsy). -/
def jsTruthyNat : Option Nat → Bool
  | some n => decide (n ≠ 0)
  | none => false

/-- JavaScript truthiness of an optional string (`undefined` and the empty
string are falsy). -/
def jsTruthyStr : Option Str → Bool
  | some s => decide (s ≠ [])
  | none => false

/-- JavaScript `a || b` on an optional string and a string default. -/
def jsOrStr (a : Option Str) (b : Str) : Str :=
  match a with
  | some s => if s = [] then b else s
  | none => b

/-- The `type` field of a token payload: `'access'` or `'refresh'`. -/
inductive TokenType
  | access
  | refresh
deriving DecidableEq, Repr

/-- A `Role` entity as it is serialized into the access-token payload: the
`User.roles` getter returns the related `Role` objects, and
`generateAccessToken` embeds those objects — not their names — under the
`roles` key.  Only the `name` column is ever read by the services
(`validateToken` maps `.name` on both sides of its comparison), so the
other columns (`id`, `description`, timestamps) are omitted here; they
would only make the serialized object differ further from a bare name
string. -/
structure RoleObj where
  name : Str
deriving DecidableEq, Repr

/-- A decoded JWT payload.  The fields mirror the JSON object signed by
`generateAccessToken` / `generateRefreshToken`: `sub`, `email`, `roles`,
`type`, and the `exp` claim added by `jwt.sign` via `expiresIn`.  Fields are
optional because `jwt.decode` accepts arbitrary foreign tokens.  The `roles`
field carries the serialized `Role` objects embedded in the token, exactly
as the source's payload does. -/
structure Payload where
  sub : Option Str
  email : Option Str
  roles : List RoleObj
  type : Option TokenType
  exp : Option Nat
deriving DecidableEq, Repr

/-- A JWT-shaped token string: either a well-formed token carrying a payload
and the secret it was signed with, or a string that `jwt.decode` cannot
decode at all. -/
inductive Jwt
  | signed (payload : Payload) (secret : Str)
  | undecodable
deriving DecidableEq, Repr

/-- Model of `jwt.decode(token)`: extracts the payload without any verification. -/
def jwtDecode : Jwt → Option Payload
  | .signed p _ => some p
  | .undecodable => none

/-- Model of `jwt.verify(token, secret)` at time `now` (seconds): checks the signature
and, when an `exp` claim is present, that the token is not expired. -/
def jwtVerify (secret : Str) (now : Nat) : Jwt → Option Payload
  | .signed p s =>
    if s = secret then
      match p.exp with
      | some e => if now < e then some p else none
      | none => some p
    else none
  | .undecodable => none

/-- The shared signing secret (`jwtConfig.secret`). -/
def jwtConfigSecret : Str := str "JWT_SECRET"

/-- Model of `jwtConfig.accessTokenExpiry` default: 15 minutes, in seconds. -/
def accessTokenExpiry : Nat := 15 * 60

/-- Model of `jwtConfig.refreshTokenExpiry` default: 7 days, in seconds. -/
def refreshTokenExpiry : Nat := 7 * 24 * 60 * 60

/-- A `users` table row, with the `Role` entities reachable through the
`userRoles -> role` relation (the `User.roles` getter). -/
structure UserRec where
  pid : Str
  email : Str
  isActive : Bool
  roles : List RoleObj
deriving DecidableEq, Repr

/-- The role names of a principal: `user.roles.map((role) => role.name)` as
`validateToken` computes them. -/
def UserRec.roleNames (u : UserRec) : List Str :=
  u.roles.map RoleObj.name

/-- A `permissions` table row: `(method, route, action)`. -/
structure Permission where
  method : Str
  route : Str
  action : Str
deriving DecidableEq, Repr

/-- A `role_permissions` join row, denormalized to the role name and the
permission it grants. -/
structure RolePermissionRec where
  roleName : Str
  permission : Permission
deriving DecidableEq, Repr

/-- A `token_blacklist` row as created by `logout`. -/
structure BlacklistRec where
  token : Jwt
  expiresAt : Nat
  userId : Str
  reason : Str
deriving DecidableEq, Repr

/-- The persistent store: the tables read and written by the services under
verification.  Lists model table rows in insertion order (the order TypeORM
`find` without an explicit order returns and the loops iterate in). -/
structure DB where
  users : List UserRec
  permissions : List Permission
  rolePermissions : List RolePermissionRec
  blacklist : List BlacklistRec
deriving DecidableEq, Repr

/-- Model of the `userRepository` lookup `findOne` keyed by `pid`. -/
def findUserByPid (db : DB) (pid : Str) : Option UserRec :=
  db.users.find? (fun u => u.pid = pid)

/-- Model of `AuthService.isTokenBlacklisted`: existence lookup by token value. -/
def isTokenBlacklisted (db : DB) (token : Jwt) : Bool :=
  db.blacklist.any (fun r => r.token = token)

/-- Model of `AuthService.areArraysEqual`: length equality plus one-sided membership. -/
def areArraysEqual (arr1 arr2 : List Str) : Bool :=
  decide (arr1.length = arr2.length) && arr1.all (fun item => decide (item ∈ arr2))

/-- The reasons `validateToken` rejects a token; every one of them is
rethrown by the source as an `UnauthorizedException`. -/
inductive AuthError
  | tokenInvalidated
  | invalidSignatureOrExpired
  | invalidTokenType
  | userGoneOrInactive
  | rolesChanged
deriving DecidableEq, Repr

/-- Model of `AuthService.validateToken(token, type)` at time `now`: blacklist check,
then `jwt.verify`, then the `type` field check, then (for access tokens) the
re-fetch of the principal with the active and role-equality checks. -/
def validateToken (db : DB) (token : Jwt) (type : TokenType) (now : Nat) :
    Except AuthError Payload :=
  if isTokenBlacklisted db token then .error .tokenInvalidated
  else
    match jwtVerify jwtConfigSecret now token with
    | none => .error .invalidSignatureOrExpired
    | some decoded =>
      if decoded.type ≠ some type then .error .invalidTokenType
      else if type = .access then
        match decoded.sub with
        | none => .error .userGoneOrInactive
        | some s =>
          match findUserByPid db s with
          | none => .error .userGoneOrInactive
          | some user =>
            if user.isActive = false then .error .userGoneOrInactive
            else if areArraysEqual (user.roles.map RoleObj.name)
                (decoded.roles.map RoleObj.name) = false then
              .error .rolesChanged
            else .ok decoded
      else .ok decoded

/-- Model of `AuthService.generateAccessToken(user)` issued at time `now`. -/
def generateAccessToken (user : UserRec) (now : Nat) : Jwt :=
  .signed
    { sub := some user.pid
      email := some user.email
      roles := user.roles
      type := some .access
      exp := some (now + accessTokenExpiry) }
    jwtConfigSecret

/-- Model of `AuthService.generateRefreshToken(user)` issued at time `now`. -/
def generateRefreshToken (user : UserRec) (now : Nat) : Jwt :=
  .signed
    { sub := some user.pid
      email := none
      roles := []
      type := some .refresh
      exp := some (now + refreshTokenExpiry) }
    jwtConfigSecret

/-- Model of `AuthService.refreshAccessToken`: verify the refresh token, re-fetch the
user and issue a brand-new access+refresh pair; any failure yields `none`.
The store is threaded through unchanged because the source performs no
write on this path. -/
def refreshAccessToken (db : DB) (refreshToken : Jwt) (now : Nat) :
    Option (Jwt × Jwt) × DB :=
  match validateToken db refreshToken .refresh now with
  | .error _ => (none, db)
  | .ok decoded =>
    match decoded.sub with
    | none => (none, db)
    | some s =>
      match findUserByPid db s with
      | none => (none, db)
      | some user =>
        if user.isActive = false then (none, db)
        else (some (generateAccessToken user now, generateRefreshToken user now), db)

/-- The only error `logout` throws: `BadRequestException("Invalid access token")`. -/
inductive LogoutError
  | invalidAccessToken
deriving DecidableEq, Repr

/-- The blacklist row `logout` builds from a decoded payload (`expiresAt` is
`new Date(exp * 1000)`, `userId` is `userId || decoded.sub`). -/
def mkBlacklistRec (token : Jwt) (decoded : Payload) (userId : Option Str) :
    BlacklistRec :=
  { token := token
    expiresAt := decoded.exp.getD 0 * 1000
    userId := jsOrStr userId (decoded.sub.getD [])
    reason := str "logout" }

/-- Model of `AuthService.logout(accessToken, refreshToken?, userId?)`: decode (not
verify) the access token, reject with `BadRequest` when it does not decode to
a payload with truthy `exp` and `sub`, otherwise insert a blacklist row; when
a refresh token is supplied, insert a row for it too if and only if it
decodes with truthy `exp` and `sub` (otherwise it is skipped silently). -/
def logout (db : DB) (accessToken : Jwt) (refreshToken : Option Jwt)
    (userId : Option Str) : Except LogoutError DB :=
  match jwtDecode accessToken with
  | none => .error .invalidAccessToken
  | some accessDecoded =>
    if jsTruthyNat accessDecoded.exp = false ∨ jsTruthyStr accessDecoded.sub = false then
      .error .invalidAccessToken
    else
      let db1 : DB :=
        { db with blacklist := db.blacklist ++ [mkBlacklistRec accessToken accessDecoded userId] }
      match refreshToken with
      | none => .ok db1
      | some rt =>
        match jwtDecode rt with
        | none => .ok db1
        | some refreshDecoded =>
          if jsTruthyNat refreshDecoded.exp && jsTruthyStr refreshDecoded.sub then
            .ok { db1 with
                  blacklist := db1.blacklist ++ [mkBlacklistRec rt refreshDecoded userId] }
          else .ok db1

/-- A JavaScript value bound as a parameter of the
`role.name IN (:...userRoles)` query: the declared contract of
`isAuthorized` is an array of role-name strings, but the `authorize`
middleware actually passes the decoded `Role` objects from the token
payload without mapping `.name`, so both value categories occur. -/
inductive SqlParam
  | strVal (s : Str)
  | roleObj (r : RoleObj)
deriving DecidableEq, Repr

/-- The text the driver binds for a parameter of a text comparison: a string
is bound as itself; a non-primitive object is serialized to its JSON text
(escaped braces around a quoted `name` field here, since `RoleObj` keeps
only the column the services read). -/
def sqlParamToText : SqlParam → Str
  | .strVal s => s
  | .roleObj r => str "\x7b\"name\":\"" ++ r.name ++ str "\"\x7d"

/-- Model of `AuthService.isAuthorized(userRoles, method, action)`: false
immediately for an empty parameter list, otherwise an existence query over
the role-permission join matching `role.name IN (:...userRoles)` (the
parameters compared as the driver binds them), the method and the action. -/
def isAuthorized (db : DB) (userRoles : List SqlParam) (method action : Str) : Bool :=
  if userRoles.isEmpty then false
  else
    db.rolePermissions.any fun rp =>
      decide (rp.roleName ∈ userRoles.map sqlParamToText) &&
      decide (rp.permission.method = method) &&
      decide (rp.permission.action = action)

/-! ## Permission catalog (`PermissionService` in `role.service.ts`) -/

/-- The in-process cache of `PermissionService`: a JavaScript `Map` from
`method:route` keys to actions, modelled as an association list in insertion
order. -/
abbrev Cache := List (Str × Str)

/-- The cache key: the method and the route joined by a colon. -/
def cacheKey (method route : Str) : Str := method ++ [':'] ++ route

/-- Model of `Map.get` (paired with `Map.has`). -/
def lookupCache (c : Cache) (k : Str) : Option Str :=
  (c.find? (fun p => p.1 = k)).map (fun p => p.2)

/-- Model of `Map.set`: overwrite in place or append. -/
def setCache (c : Cache) (k v : Str) : Cache :=
  if c.any (fun p => p.1 = k) then
    c.map (fun p => if p.1 = k then (k, v) else p)
  else c ++ [(k, v)]

/-- Model of `Map.delete`. -/
def deleteCache (c : Cache) (k : Str) : Cache :=
  c.filter (fun p => p.1 ≠ k)

/-- Model of `PermissionService.matchesRoutePattern(actualRoute, patternRoute)`:
exact string equality, else split both on `/`, drop empty segments, require
equal counts, and check each segment pair (`:`-prefixed pattern segments
match anything). -/
def matchesRoutePattern (actualRoute patternRoute : Str) : Bool :=
  if actualRoute = patternRoute then true
  else
    let actualSegments := nonEmptySegs '/' actualRoute
    let patternSegments := nonEmptySegs '/' patternRoute
    if actualSegments.length ≠ patternSegments.length then false
    else
      (actualSegments.zip patternSegments).all fun q =>
        strStartsWith q.2 [':'] || decide (q.1 = q.2)

/-- Model of `PermissionService.findPermissionByPattern(method, route)`: the first
stored permission with this method whose route pattern matches. -/
def findPermissionByPattern (perms : List Permission) (method route : Str) :
    Option Permission :=
  (perms.filter (fun p => p.method = method)).find? fun p =>
    matchesRoutePattern route p.route

/-- The first stored permission matching `(method, route)` exactly
(the `permissionRepo` lookup `findOne` keyed by method and route). -/
def findExactPermission (perms : List Permission) (method route : Str) :
    Option Permission :=
  perms.find? (fun p => p.method = method ∧ p.route = route)

/-- Model of `PermissionService.getAction(method, route)`: consult the cache (an empty
cached string is the negative-result marker and maps to `null`), else try the
exact match, else the pattern match, caching the outcome either way. -/
def getAction (db : DB) (cache : Cache) (method route : Str) :
    Option Str × Cache :=
  let key := cacheKey method route
  match lookupCache cache key with
  | some cached => (if cached = [] then none else some cached, cache)
  | none =>
    match findExactPermission db.permissions method route with
    | some p => (some p.action, setCache cache key p.action)
    | none =>
      match findPermissionByPattern db.permissions method route with
      | some p => (some p.action, setCache cache key p.action)
      | none => (none, setCache cache key [])

/-- The errors `createPermission` / `findOrCreatePermissionInternal` throw. -/
inductive PermError
  | alreadyExists
  | invalidActionFormat
deriving DecidableEq, Repr

/-- JavaScript `action.split(':')` used by the action-format validation. -/
def actionFormatValid (action : Str) : Bool :=
  strContainsChar action ':' && decide ((jsSplit ':' action).length = 2)

/-- Model of `PermissionService.createPermission(method, route, action)`: conflict on
an existing identical triple, validation of the `module:operation` shape,
then append the new permission and delete the `method:route` cache entry. -/
def createPermission (db : DB) (cache : Cache) (method route action : Str) :
    Except PermError (Permission × DB × Cache) :=
  if db.permissions.any (fun p => p.method = method ∧ p.route = route ∧ p.action = action) then
    .error .alreadyExists
  else if actionFormatValid action = false then
    .error .invalidActionFormat
  else
    let p : Permission := ⟨method, route, action⟩
    .ok (p, { db with permissions := db.permissions ++ [p] },
         deleteCache cache (cacheKey method route))

/-- The `^\/api\/v\d+\//` prefix-stripping regex shared by
`normalizeRouteForStorage` (role.service.ts) and `stripApiVersion`
(middleware): replace a leading `/api/v<digits>/` by `/`. -/
def stripApiVersion (route : Str) : Str :=
  match route with
  | '/' :: 'a' :: 'p' :: 'i' :: '/' :: 'v' :: rest =>
    let ds := rest.takeWhile Char.isDigit
    if ds = [] then route
    else
      match rest.drop ds.length with
      | '/' :: tail => '/' :: tail
      | _ => route
  | _ => route

/-- Model of `PermissionService.findOrCreatePermissionInternal(method, route, action)`:
normalize the route, return an existing triple untouched, otherwise validate
the action format and append; the cache is not touched. -/
def findOrCreatePermissionInternal (db : DB) (method route action : Str) :
    Except PermError (Permission × DB) :=
  let normalizedRoute := stripApiVersion route
  match db.permissions.find?
      (fun p => p.method = method ∧ p.route = normalizedRoute ∧ p.action = action) with
  | some p => .ok (p, db)
  | none =>
    if actionFormatValid action = false then .error .invalidActionFormat
    else
      let p : Permission := ⟨method, normalizedRoute, action⟩
      .ok (p, { db with permissions := db.permissions ++ [p] })

/-! ## Middleware pipeline (`authenticate` / `authorize`) -/

/-- An inbound HTTP request as the middleware sees it: the method, the
pathname of `req.originalUrl` (empty when absent), Express's `req.baseUrl`
and `req.path`, the matched route template `req.route?.path`, and the bearer
token extracted from the `Authorization` header (`none` when the header is
missing or not `Bearer`-shaped). -/
structure Request where
  method : Str
  originalUrl : Str
  baseUrl : Str
  path : Str
  routePath : Option Str
  token : Option Jwt
deriving DecidableEq, Repr

/-- Model of `getFullRoutePath(req)`: prefer the pathname of `originalUrl`, else glue
`baseUrl` and `path`, forcing a leading slash and dropping a non-root
trailing slash. -/
def getFullRoutePath (req : Request) : Str :=
  if req.originalUrl ≠ [] then req.originalUrl
  else
    let fullPath := req.baseUrl ++ req.path
    let fullPath := if strStartsWith fullPath [ '/' ] then fullPath else '/' :: fullPath
    if fullPath.length > 1 ∧ fullPath.getLast? = some '/' then fullPath.dropLast
    else fullPath

/-- JavaScript `[...new Set(l)]`: deduplicate keeping first occurrences. -/
def dedupFirst (l : List Str) : List Str :=
  l.foldl (fun acc x => if x ∈ acc then acc else acc ++ [x]) []

/-- Model of `getPossibleRoutes(req, normalizedRoute)`: the route variants tried
against the catalog, deduplicated with empties dropped. -/
def getPossibleRoutes (req : Request) (normalizedRoute : Str) : List Str :=
  let routes := [normalizedRoute]
  let routes := routes ++ (if req.path ≠ [] then [stripApiVersion req.path] else [])
  let routes := routes ++
    (match req.routePath with
     | some rp => if rp ≠ [] ∧ rp ≠ req.path then [stripApiVersion rp] else []
     | none => [])
  let routes := routes ++
    (if normalizedRoute ≠ [] ∧ strStartsWith normalizedRoute [ '/' ] = true then
      [normalizedRoute.drop 1]
     else [])
  let routes := routes ++
    (if normalizedRoute ≠ [] ∧ strStartsWith normalizedRoute [ '/' ] = false then
      [ '/' :: normalizedRoute ]
     else [])
  dedupFirst (routes.filter (fun r => r ≠ []))

/-- Model of `inferActionFromConvention(method, route)`: the naming-convention
fallback producing `resource:operation`. -/
def inferActionFromConvention (method route : Str) : Str :=
  let segments := nonEmptySegs '/' route
  let resource := segments.headD (str "unknown")
  let operation :=
    if method = str "GET" then
      if segments.length > 1 ∧
          (segments.getD 1 [] = str "profile" ∨ segments.getD 1 [] = str "roles") then
        segments.getD 1 []
      else if strContainsChar route ':' = true ∨ segments.length > 1 then str "detail"
      else str "list"
    else if method = str "POST" then
      if segments.length > 1 then segments.getD 1 [] else str "create"
    else if method = str "PUT" ∨ method = str "PATCH" then str "update"
    else if method = str "DELETE" then str "delete"
    else method.map Char.toLower
  resource ++ [':'] ++ operation

/-- The catalog-lookup loop of `inferAction`: try each route variant in turn,
threading the cache, until one yields an action. -/
def tryRoutes (db : DB) (cache : Cache) (method : Str) :
    List Str → Option Str × Cache
  | [] => (none, cache)
  | r :: rs =>
    match getAction db cache method r with
    | (some a, cache1) => (some a, cache1)
    | (none, cache1) => tryRoutes db cache1 method rs

/-- Model of `inferAction(req)`: normalized route, catalog lookup over the variants,
then the convention fallback. -/
def inferAction (db : DB) (cache : Cache) (req : Request) : Str × Cache :=
  let method := req.method
  let fullRoute := getFullRoutePath req
  let normalizedRoute := stripApiVersion fullRoute
  let possibleRoutes := getPossibleRoutes req normalizedRoute
  match tryRoutes db cache method possibleRoutes with
  | (some a, cache1) => (a, cache1)
  | (none, cache1) => (inferActionFromConvention method normalizedRoute, cache1)

/-- The error a request pipeline step passes to `next(error)`: the
`UnauthorizedException`s of `authenticate` (missing token or a
`validateToken` failure) or the `ForbiddenException` of `authorize`. -/
inductive MwError
  | unauthorizedNoToken
  | unauthorizedToken (e : AuthError)
  | forbidden
deriving DecidableEq, Repr

/-- Whether a pipeline error is an `UnauthorizedException` (versus
`ForbiddenException`). -/
def MwError.isUnauthorized : MwError → Bool
  | .unauthorizedNoToken => true
  | .unauthorizedToken _ => true
  | .forbidden => false

/-- The `authenticate` middleware: extract the bearer token and validate it
with expected type `access`; on success the decoded payload is attached to
the request (`req.user`). -/
def authenticate (db : DB) (req : Request) (now : Nat) : Except MwError Payload :=
  match req.token with
  | none => .error .unauthorizedNoToken
  | some t =>
    match validateToken db t .access now with
    | .error e => .error (.unauthorizedToken e)
    | .ok decoded => .ok decoded

/-- The `authorize` middleware given the attached `req.user` (if any): the
role list `req.user?.roles || []` — the decoded `Role` objects, passed on
without a `.name` projection (the `map SqlParam.roleObj` records their
value category, it converts nothing) — defaults to empty, the action is
inferred, and `isAuthorized` decides between passing and
`ForbiddenException`. -/
def authorizeStep (db : DB) (cache : Cache) (user : Option Payload)
    (req : Request) : Except MwError Unit × Cache :=
  let userRoles := ((user.map Payload.roles).getD []).map SqlParam.roleObj
  let (action, cache1) := inferAction db cache req
  if isAuthorized db userRoles req.method action then (.ok (), cache1)
  else (.error .forbidden, cache1)

/-- The two-step pipeline mounted on protected routes: `authenticate` then
`authorize`. -/
def pipeline (db : DB) (cache : Cache) (req : Request) (now : Nat) :
    Except MwError Payload × Cache :=
  match authenticate db req now with
  | .error e => (.error e, cache)
  | .ok user =>
    match authorizeStep db cache (some user) req with
    | (.ok _, cache1) => (.ok user, cache1)
    | (.error e, cache1) => (.error e, cache1)

/-! ## Concrete scenario data for the end-to-end claim -/

/-- The scenario principal: active, role set exactly `ADMIN`. -/
def c1User : UserRec :=
  { pid := str "u-1", email := str "admin@example.com", isActive := true
    roles := [⟨str "ADMIN"⟩] }

/-- The scenario permission `(GET, /users, user:list)`. -/
def c1Perm : Permission := ⟨str "GET", str "/users", str "user:list"⟩

/-- The scenario store: the principal, the permission, and the grant of the
permission to role `ADMIN`; empty blacklist. -/
def c1Db : DB :=
  { users := [c1User]
    permissions := [c1Perm]
    rolePermissions := [⟨str "ADMIN", c1Perm⟩]
    blacklist := [] }

/-- The scenario access token, issued at time 0 (expires at 900). -/
def c1Token : Jwt := generateAccessToken c1User 0

/-- The scenario request: `GET /api/v1/users` carrying the token. -/
def c1Req : Request :=
  { method := str "GET"
    originalUrl := str "/api/v1/users"
    baseUrl := str "/api/v1"
    path := str "/users"
    routePath := some (str "/users")
    token := some c1Token }

/-- The scenario store after the principal's role set is cleared to `[]`. -/
def c1DbRolesCleared : DB :=
  { c1Db with users := [{ c1User with roles := [] }] }


/-- Specification-side reading of the pattern matcher, following the spec's
words: split both stored pattern and actual path on `/`, require equal
segment counts, and each pattern segment either begins with `:` (matching
any single segment) or must equal the path segment literally. -/
def segMatchSpec (actual pattern : Str) : Prop :=
  List.Forall₂ (fun a p => strStartsWith p [ ':' ] = true ∨ a = p)
    (nonEmptySegs '/' actual) (nonEmptySegs '/' pattern)

/-- The blacklist rows `logout` inserts for the optional refresh token. -/
def logoutRefreshRecs (refreshToken : Option Jwt) (userId : Option Str) :
    List BlacklistRec :=
  match refreshToken with
  | none => []
  | some rt =>
    match jwtDecode rt with
    | none => []
    | some rd =>
      if jsTruthyNat rd.exp && jsTruthyStr rd.sub then [mkBlacklistRec rt rd userId]
      else []

/-! ## Helper lemmas -/

theorem areArraysEqual_self (l : List Str) : areArraysEqual l l = true := by
  simp [areArraysEqual, List.all_eq_true]

theorem areArraysEqual_iff_toFinset (arr1 arr2 : List Str)
    (h1 : arr1.Nodup) (h2 : arr2.Nodup) :
    areArraysEqual arr1 arr2 = true ↔ arr1.toFinset = arr2.toFinset := by
  constructor
  · intro h
    simp only [areArraysEqual, Bool.and_eq_true, decide_eq_true_eq,
      List.all_eq_true] at h
    obtain ⟨hlen, hsub⟩ := h
    apply Finset.eq_of_subset_of_card_le
    · intro x hx
      rw [List.mem_toFinset] at hx ⊢
      exact hsub x hx
    · calc arr2.toFinset.card ≤ arr2.length := arr2.toFinset_card_le
        _ = arr1.length := hlen.symm
        _ = arr1.toFinset.card := (List.toFinset_card_of_nodup h1).symm
  · intro h
    simp only [areArraysEqual, Bool.and_eq_true, decide_eq_true_eq,
      List.all_eq_true]
    refine ⟨?_, ?_⟩
    · rw [← List.toFinset_card_of_nodup h1, ← List.toFinset_card_of_nodup h2, h]
    · intro x hx
      have hx1 : x ∈ arr1.toFinset := List.mem_toFinset.mpr hx
      rw [h] at hx1
      exact List.mem_toFinset.mp hx1

theorem jsSplit_ne_nil (sep : Char) (s : Str) : jsSplit sep s ≠ [] := by
  cases s with
  | nil => simp [jsSplit]
  | cons c cs =>
    simp only [jsSplit]
    split
    · simp
    · cases h : jsSplit sep cs <;> simp

theorem jsSplit_length (sep : Char) (s : Str) :
    (jsSplit sep s).length = s.count sep + 1 := by
  induction s with
  | nil => simp [jsSplit]
  | cons c cs ih =>
    simp only [jsSplit]
    by_cases h : c = sep
    · subst h
      simp [List.count_cons, ih]
    · rw [if_neg h]
      cases hr : jsSplit sep cs with
      | nil => exact absurd hr (jsSplit_ne_nil sep cs)
      | cons x xs =>
        have hlen : (cs.count sep + 1) = (x :: xs).length := by rw [← ih, hr]
        simp only [List.length_cons] at hlen ⊢
        have hcnt : (c :: cs).count sep = cs.count sep := by
          simp only [List.count_cons, beq_iff_eq]
          rw [if_neg h]
          omega
        omega

theorem actionFormatValid_iff (a : Str) :
    actionFormatValid a = true ↔ a.count ':' = 1 := by
  simp only [actionFormatValid, strContainsChar, Bool.and_eq_true,
    decide_eq_true_eq, jsSplit_length]
  constructor
  · rintro ⟨_, hlen⟩
    omega
  · intro h
    refine ⟨?_, by omega⟩
    have : 0 < a.count ':' := by omega
    exact List.count_pos_iff.mp this

theorem lookupCache_deleteCache_self (c : Cache) (k : Str) :
    lookupCache (deleteCache c k) k = none := by
  have hfind : List.find? (fun p => decide (p.1 = k)) (deleteCache c k) = none := by
    rw [List.find?_eq_none]
    intro p hp
    simp only [deleteCache, List.mem_filter] at hp
    simpa using hp.2
  simp [lookupCache, hfind]

theorem lookupCache_deleteCache_other (c : Cache) (k k2 : Str) (h : k2 ≠ k) :
    lookupCache (deleteCache c k) k2 = lookupCache c k2 := by
  induction c with
  | nil => rfl
  | cons p ps ih =>
    by_cases hk : p.1 = k
    · have hne2 : ¬ (k = k2) := fun hc => h hc.symm
      simpa [deleteCache, lookupCache, List.filter_cons, List.find?_cons, hk, hne2]
        using ih
    · by_cases h2 : p.1 = k2
      · simp [deleteCache, lookupCache, List.filter_cons, List.find?_cons, hk, h2, h]
      · simpa [deleteCache, lookupCache, List.filter_cons, List.find?_cons, hk, h2, h]
        using ih

theorem zipAll_iff_forall₂ (xs ys : List Str) (hlen : xs.length = ys.length) :
    (((xs.zip ys).all fun q => strStartsWith q.2 [ ':' ] || decide (q.1 = q.2)) = true ↔
      List.Forall₂ (fun x y => strStartsWith y [ ':' ] = true ∨ x = y) xs ys) := by
  induction xs generalizing ys with
  | nil =>
    cases ys with
    | nil => simp
    | cons y ys => simp at hlen
  | cons x xs ih =>
    cases ys with
    | nil => simp at hlen
    | cons y ys =>
      simp only [List.zip_cons_cons, List.all_cons, Bool.and_eq_true, Bool.or_eq_true,
        decide_eq_true_eq, List.forall₂_cons]
      rw [ih ys (by simpa using hlen)]

theorem matchesRoutePattern_eq_all (a p : Str) (heq : a ≠ p)
    (hlen : (nonEmptySegs '/' a).length = (nonEmptySegs '/' p).length) :
    matchesRoutePattern a p =
      (((nonEmptySegs '/' a).zip (nonEmptySegs '/' p)).all
        fun q => strStartsWith q.2 [ ':' ] || decide (q.1 = q.2)) := by
  unfold matchesRoutePattern
  rw [if_neg heq]
  dsimp only
  rw [if_neg (by omega)]

theorem matchesRoutePattern_iff (a p : Str) :
    matchesRoutePattern a p = true ↔ segMatchSpec a p := by
  unfold segMatchSpec
  by_cases heq : a = p
  · subst heq
    constructor
    · intro _
      exact List.forall₂_same.mpr (fun x _ => Or.inr rfl)
    · intro _
      simp [matchesRoutePattern]
  · by_cases hlen : (nonEmptySegs '/' a).length = (nonEmptySegs '/' p).length
    · rw [matchesRoutePattern_eq_all a p heq hlen]
      exact zipAll_iff_forall₂ _ _ hlen
    · have hfalse : matchesRoutePattern a p = false := by
        unfold matchesRoutePattern
        rw [if_neg heq]
        dsimp only
        rw [if_pos hlen]
      rw [hfalse]
      constructor
      · intro hcontra
        cases hcontra
      · intro hf
        exact absurd hf.length_eq hlen

theorem jwtVerify_decode (secret : Str) (now : Nat) (t : Jwt) (d : Payload)
    (h : jwtVerify secret now t = some d) : jwtDecode t = some d := by
  cases t with
  | undecodable => simp [jwtVerify] at h
  | signed p s =>
    simp only [jwtVerify] at h
    repeat' split at h
    all_goals simp_all [jwtDecode]

/-! ## Claim theorems -/

/-- C6: for every principal, verifying a token immediately after issuing it
(same store, same time, token not blacklisted, principal still found and
active) succeeds and returns the issued payload — same subject (the
principal's pid) and same type, `access` for `generateAccessToken` and
`refresh` for `generateRefreshToken`; and any decodable token whose `type`
field is `refresh` never passes `validateToken` with expected type
`access`. -/
theorem C6_issue_verify_roundtrip (db : DB) (user : UserRec) (now : Nat)
    (h1 : isTokenBlacklisted db (generateAccessToken user now) = false)
    (h2 : isTokenBlacklisted db (generateRefreshToken user now) = false)
    (h3 : findUserByPid db user.pid = some user)
    (h4 : user.isActive = true) :
    validateToken db (generateAccessToken user now) .access now =
      .ok { sub := some user.pid, email := some user.email, roles := user.roles,
            type := some .access, exp := some (now + accessTokenExpiry) } ∧
    validateToken db (generateRefreshToken user now) .refresh now =
      .ok { sub := some user.pid, email := none, roles := [],
            type := some .refresh, exp := some (now + refreshTokenExpiry) } ∧
    (∀ (db2 : DB) (p : Payload) (sec : Str) (now2 : Nat) (q : Payload),
      p.type = some .refresh →
      validateToken db2 (.signed p sec) .access now2 ≠ .ok q) := by
  have hexp1 : now < now + accessTokenExpiry := by
    have : 0 < accessTokenExpiry := by norm_num [accessTokenExpiry]
    omega
  have hexp2 : now < now + refreshTokenExpiry := by
    have : 0 < refreshTokenExpiry := by norm_num [refreshTokenExpiry]
    omega
  refine ⟨?_, ?_, ?_⟩
  · simp only [generateAccessToken] at h1
    simp [validateToken, generateAccessToken, jwtVerify, h1, h3, h4, hexp1,
      areArraysEqual_self]
  · simp only [generateRefreshToken] at h2
    simp [validateToken, generateRefreshToken, jwtVerify, h2, hexp2]
  · intro db2 p sec now2 q htype
    unfold validateToken
    by_cases hbl : isTokenBlacklisted db2 (.signed p sec) = true
    · simp [hbl]
    · simp only [Bool.not_eq_true] at hbl
      simp only [hbl, Bool.false_eq_true, if_false]
      cases hver : jwtVerify jwtConfigSecret now2 (.signed p sec) with
      | none => simp
      | some d =>
        have hd : jwtDecode (Jwt.signed p sec) = some d :=
          jwtVerify_decode _ _ _ _ hver
        simp only [jwtDecode, Option.some_inj] at hd
        subst hd
        simp [htype]

/-- A witness for C6 at a concrete store, principal and time, with the
refresh-token clause instantiated at the concrete refresh token. -/
theorem C6_issue_verify_roundtrip_witness :
    validateToken c1Db (generateAccessToken c1User 0) .access 0 =
      .ok { sub := some c1User.pid, email := some c1User.email,
            roles := c1User.roles, type := some .access,
            exp := some (0 + accessTokenExpiry) } ∧
    validateToken c1Db (generateRefreshToken c1User 0) .refresh 0 =
      .ok { sub := some c1User.pid, email := none, roles := [],
            type := some .refresh, exp := some (0 + refreshTokenExpiry) } ∧
    validateToken c1Db
        (.signed ⟨some (str "u-1"), none, [], some .refresh,
          some (0 + refreshTokenExpiry)⟩ jwtConfigSecret) .access 0 ≠
      .ok ⟨some (str "u-1"), none, [], some .refresh,
          some (0 + refreshTokenExpiry)⟩ :=
  ⟨(C6_issue_verify_roundtrip c1Db c1User 0 (by rfl) (by rfl) (by rfl) (by rfl)).1,
   (C6_issue_verify_roundtrip c1Db c1User 0 (by rfl) (by rfl) (by rfl) (by rfl)).2.1,
   (C6_issue_verify_roundtrip c1Db c1User 0 (by rfl) (by rfl) (by rfl) (by rfl)).2.2
     c1Db ⟨some (str "u-1"), none, [], some .refresh, some (0 + refreshTokenExpiry)⟩
     jwtConfigSecret 0
     ⟨some (str "u-1"), none, [], some .refresh, some (0 + refreshTokenExpiry)⟩ rfl⟩

/-- C2: for an access-token verification that reaches the principal check
(not blacklisted, signature and expiry valid, type `access`, principal
found and active, both role lists duplicate-free as the join-table and
role-name uniqueness guarantee), verification succeeds exactly when the
role-name set embedded in the token equals the principal's current
role-name set, and fails with the role-mismatch error otherwise. -/
theorem C2_access_roles_must_match (db : DB) (p : Payload) (s : Str)
    (user : UserRec) (now : Nat)
    (hbl : isTokenBlacklisted db (.signed p jwtConfigSecret) = false)
    (hver : jwtVerify jwtConfigSecret now (.signed p jwtConfigSecret) = some p)
    (htype : p.type = some .access)
    (hsub : p.sub = some s)
    (huser : findUserByPid db s = some user)
    (hactive : user.isActive = true)
    (hnd1 : user.roleNames.Nodup)
    (hnd2 : (p.roles.map RoleObj.name).Nodup) :
    (validateToken db (.signed p jwtConfigSecret) .access now = .ok p ↔
      user.roleNames.toFinset = (p.roles.map RoleObj.name).toFinset) ∧
    (user.roleNames.toFinset ≠ (p.roles.map RoleObj.name).toFinset →
      validateToken db (.signed p jwtConfigSecret) .access now =
        .error .rolesChanged) := by
  have hred : validateToken db (.signed p jwtConfigSecret) .access now =
      (if areArraysEqual user.roleNames (p.roles.map RoleObj.name) = false then
        .error .rolesChanged
       else .ok p) := by
    unfold validateToken
    rw [hbl]
    simp only [Bool.false_eq_true, if_false]
    rw [hver]
    simp [htype, hsub, huser, hactive, UserRec.roleNames]
  rw [hred]
  by_cases hset : user.roleNames.toFinset = (p.roles.map RoleObj.name).toFinset
  · have heq : areArraysEqual user.roleNames (p.roles.map RoleObj.name) = true :=
      (areArraysEqual_iff_toFinset _ _ hnd1 hnd2).mpr hset
    simp [heq, hset]
  · have heq : areArraysEqual user.roleNames (p.roles.map RoleObj.name) = false := by
      cases hcase : areArraysEqual user.roleNames (p.roles.map RoleObj.name) with
      | false => rfl
      | true =>
        exact absurd ((areArraysEqual_iff_toFinset _ _ hnd1 hnd2).mp hcase) hset
    simp [heq, hset]

/-- A witness for C2: at the scenario store the matching token verifies, and
at the store whose principal's role set was cleared the same token is
rejected with the role-mismatch error. -/
theorem C2_access_roles_must_match_witness :
    validateToken c1Db
      (.signed ⟨some (str "u-1"), some (str "admin@example.com"), [⟨str "ADMIN"⟩],
        some .access, some 900⟩ jwtConfigSecret) .access 100 =
      .ok ⟨some (str "u-1"), some (str "admin@example.com"), [⟨str "ADMIN"⟩],
        some .access, some 900⟩ ∧
    validateToken c1DbRolesCleared
      (.signed ⟨some (str "u-1"), some (str "admin@example.com"), [⟨str "ADMIN"⟩],
        some .access, some 900⟩ jwtConfigSecret) .access 100 =
      .error .rolesChanged :=
  ⟨(C2_access_roles_must_match c1Db
      ⟨some (str "u-1"), some (str "admin@example.com"), [⟨str "ADMIN"⟩],
        some .access, some 900⟩
      (str "u-1") c1User 100 (by rfl) (by rfl) (by rfl) (by rfl) (by rfl) (by rfl)
      (by decide) (by decide)).1.mpr (by decide),
   (C2_access_roles_must_match c1DbRolesCleared
      ⟨some (str "u-1"), some (str "admin@example.com"), [⟨str "ADMIN"⟩],
        some .access, some 900⟩
      (str "u-1") { c1User with roles := [] } 100 (by rfl) (by rfl) (by rfl)
      (by rfl) (by rfl) (by rfl) (by decide) (by decide)).2 (by decide)⟩

/-- C5: the revoked-token lookup decides first on every `validateToken`
call: any blacklisted token is rejected as invalidated whatever its
signature, expiry or type; in particular a blacklisted, validly-signed,
unexpired access token for a principal is rejected, while a different,
un-revoked access token for the same subject still verifies. -/
theorem C5_blacklist_checked_first (db : DB) (user : UserRec) (t1 t2 now : Nat)
    (hbl1 : isTokenBlacklisted db (generateAccessToken user t1) = true)
    (hbl2 : isTokenBlacklisted db (generateAccessToken user t2) = false)
    (_hexp1 : now < t1 + accessTokenExpiry)
    (hexp2 : now < t2 + accessTokenExpiry)
    (huser : findUserByPid db user.pid = some user)
    (hactive : user.isActive = true) :
    (∀ (db2 : DB) (tok : Jwt) (t : TokenType) (now2 : Nat),
      isTokenBlacklisted db2 tok = true →
      validateToken db2 tok t now2 = .error .tokenInvalidated) ∧
    validateToken db (generateAccessToken user t1) .access now =
      .error .tokenInvalidated ∧
    validateToken db (generateAccessToken user t2) .access now =
      .ok { sub := some user.pid, email := some user.email,
            roles := user.roles, type := some .access,
            exp := some (t2 + accessTokenExpiry) } := by
  have hfirst : ∀ (db2 : DB) (tok : Jwt) (t : TokenType) (now2 : Nat),
      isTokenBlacklisted db2 tok = true →
      validateToken db2 tok t now2 = .error .tokenInvalidated := by
    intro db2 tok t now2 hb
    unfold validateToken
    rw [hb]
    simp
  refine ⟨hfirst, hfirst db _ .access now hbl1, ?_⟩
  simp only [generateAccessToken] at hbl2
  simp [validateToken, generateAccessToken, jwtVerify, hbl2, huser, hactive,
    hexp2, areArraysEqual_self]

/-- A witness for C5: the scenario principal with the token issued at time 0
blacklisted and the token issued at time 1 not blacklisted; the ordering
clause is instantiated at the blacklisted token checked as a refresh
token. -/
theorem C5_blacklist_checked_first_witness :
    validateToken
      ⟨[c1User], [], [], [⟨generateAccessToken c1User 0, 900000, str "u-1", str "logout"⟩]⟩
      (generateAccessToken c1User 0) .refresh 5 = .error .tokenInvalidated ∧
    validateToken
      ⟨[c1User], [], [], [⟨generateAccessToken c1User 0, 900000, str "u-1", str "logout"⟩]⟩
      (generateAccessToken c1User 0) .access 100 = .error .tokenInvalidated ∧
    validateToken
      ⟨[c1User], [], [], [⟨generateAccessToken c1User 0, 900000, str "u-1", str "logout"⟩]⟩
      (generateAccessToken c1User 1) .access 100 =
      .ok { sub := some c1User.pid, email := some c1User.email,
            roles := c1User.roles, type := some .access,
            exp := some (1 + accessTokenExpiry) } :=
  ⟨(C5_blacklist_checked_first
      ⟨[c1User], [], [], [⟨generateAccessToken c1User 0, 900000, str "u-1", str "logout"⟩]⟩
      c1User 0 1 100 (by rfl) (by rfl) (by decide) (by decide) (by rfl) (by rfl)).1
      ⟨[c1User], [], [], [⟨generateAccessToken c1User 0, 900000, str "u-1", str "logout"⟩]⟩
      (generateAccessToken c1User 0) .refresh 5 (by rfl),
   (C5_blacklist_checked_first
      ⟨[c1User], [], [], [⟨generateAccessToken c1User 0, 900000, str "u-1", str "logout"⟩]⟩
      c1User 0 1 100 (by rfl) (by rfl) (by decide) (by decide) (by rfl) (by rfl)).2.1,
   (C5_blacklist_checked_first
      ⟨[c1User], [], [], [⟨generateAccessToken c1User 0, 900000, str "u-1", str "logout"⟩]⟩
      c1User 0 1 100 (by rfl) (by rfl) (by decide) (by decide) (by rfl) (by rfl)).2.2⟩

/-- C9: refreshing with a refresh token that verifies, for a principal that
is found and active, issues a brand-new access+refresh pair and leaves the
store — in particular the revoked-token set — unchanged; the old refresh
token is not blacklisted by the operation and still verifies against the
post-refresh store. -/
theorem C9_refresh_is_additive (db : DB) (rtok : Jwt) (now : Nat) (d : Payload)
    (s : Str) (user : UserRec)
    (hval : validateToken db rtok .refresh now = .ok d)
    (hsub : d.sub = some s)
    (huser : findUserByPid db s = some user)
    (hactive : user.isActive = true) :
    refreshAccessToken db rtok now =
      (some (generateAccessToken user now, generateRefreshToken user now), db) ∧
    (refreshAccessToken db rtok now).2.blacklist = db.blacklist ∧
    validateToken (refreshAccessToken db rtok now).2 rtok .refresh now = .ok d := by
  have h1 : refreshAccessToken db rtok now =
      (some (generateAccessToken user now, generateRefreshToken user now), db) := by
    unfold refreshAccessToken
    rw [hval]
    simp [hsub, huser, hactive]
  exact ⟨h1, by rw [h1], by rw [h1]; exact hval⟩

/-- A witness for C9 at the concrete scenario store and refresh token. -/
theorem C9_refresh_is_additive_witness :
    refreshAccessToken c1Db (generateRefreshToken c1User 0) 100 =
      (some (generateAccessToken c1User 100, generateRefreshToken c1User 100), c1Db) ∧
    (refreshAccessToken c1Db (generateRefreshToken c1User 0) 100).2.blacklist =
      c1Db.blacklist ∧
    validateToken (refreshAccessToken c1Db (generateRefreshToken c1User 0) 100).2
      (generateRefreshToken c1User 0) .refresh 100 =
      .ok ⟨some (str "u-1"), none, [], some .refresh, some refreshTokenExpiry⟩ :=
  C9_refresh_is_additive c1Db (generateRefreshToken c1User 0) 100
    ⟨some (str "u-1"), none, [], some .refresh, some refreshTokenExpiry⟩
    (str "u-1") c1User (by rfl) (by rfl) (by rfl) (by rfl)

/-- C10: when `authorize` runs with no authenticated principal attached to
the request, or with an empty role list, the outcome is always the
`ForbiddenException` — which is not an Unauthorized error — and
`isAuthorized` with an empty role list is false for every store (it answers
without consulting the role-permission rows). -/
theorem C10_no_principal_forbidden (db : DB) (cache : Cache)
    (user : Option Payload) (req : Request)
    (h : user = none ∨ ∃ p, user = some p ∧ p.roles = []) :
    (authorizeStep db cache user req).1 = .error .forbidden ∧
    MwError.isUnauthorized .forbidden = false ∧
    (∀ (db2 : DB) (m a : Str), isAuthorized db2 [] m a = false) := by
  have hroles : (user.map Payload.roles).getD [] = [] := by
    rcases h with h | ⟨p, hp, hr⟩
    · rw [h]; rfl
    · rw [hp]; simpa using hr
  have hempty : ∀ (db2 : DB) (m a : Str), isAuthorized db2 [] m a = false := by
    intro db2 m a
    simp [isAuthorized]
  refine ⟨?_, rfl, hempty⟩
  unfold authorizeStep
  simp only [hroles]
  simp [hempty]

/-- A witness for C10: a request with no principal attached at a store with
a permissive grant, with the store-independence clause instantiated at the
scenario store. -/
theorem C10_no_principal_forbidden_witness :
    (authorizeStep c1Db [] none c1Req).1 = .error .forbidden ∧
    MwError.isUnauthorized .forbidden = false ∧
    isAuthorized c1Db [] (str "GET") (str "user:list") = false :=
  ⟨(C10_no_principal_forbidden c1Db [] none c1Req (Or.inl rfl)).1,
   (C10_no_principal_forbidden c1Db [] none c1Req (Or.inl rfl)).2.1,
   (C10_no_principal_forbidden c1Db [] none c1Req (Or.inl rfl)).2.2
     c1Db (str "GET") (str "user:list")⟩

/-- C1 (code bug): in the scenario — permission `(GET, /users, user:list)`
granted to role `ADMIN`, request `GET /api/v1/users` carrying the valid,
unexpired access token of the active `ADMIN` principal — the resolver does
strip the `/api/v1` prefix and resolve action `user:list`, and the
role-cleared half of the claim does hold (the pipeline fails at the
authenticate step with the Unauthorized role-mismatch error, not
Forbidden); but the decision on the intact store is not allow: `authorize`
passes the decoded `Role` objects into the `role.name IN (:...userRoles)`
query without mapping `.name`, a serialized object never equals a bare role
name, and the pipeline denies the request with the `ForbiddenException`.
Had the role names been passed — `isAuthorized`'s declared string-array
contract and the spec's intent — the decision would be allow. -/
theorem C1_end_to_end_scenario :
    stripApiVersion (str "/api/v1/users") = str "/users" ∧
    (inferAction c1Db [] c1Req).1 = str "user:list" ∧
    authenticate c1Db c1Req 100 =
      .ok ⟨some (str "u-1"), some (str "admin@example.com"), [⟨str "ADMIN"⟩],
           some .access, some 900⟩ ∧
    isAuthorized c1Db [SqlParam.strVal (str "ADMIN")] (str "GET")
      (str "user:list") = true ∧
    isAuthorized c1Db [SqlParam.roleObj ⟨str "ADMIN"⟩] (str "GET")
      (str "user:list") = false ∧
    (pipeline c1Db [] c1Req 100).1 = .error .forbidden ∧
    (pipeline c1DbRolesCleared [] c1Req 100).1 =
      .error (.unauthorizedToken .rolesChanged) ∧
    MwError.isUnauthorized (.unauthorizedToken .rolesChanged) = true ∧
    MwError.isUnauthorized .forbidden = false :=
  ⟨rfl, rfl, rfl, rfl, rfl, rfl, rfl, rfl, rfl⟩

/-- C3: with no cache entry for `(method, route)`, `getAction` returns the
action of the exact stored `(method, route)` match when one exists, and
otherwise the action of the first stored permission with that method whose
route pattern matches segment-wise; the matcher agrees with the spec's
segment-wise description (equal segment counts, each pattern segment either
`:`-prefixed or literally equal), and the
`/role-permissions/:roleId/permissions` examples behave as stated. -/
theorem C3_resolveAction_spec (db : DB) (cache : Cache) (m r : Str)
    (hmiss : lookupCache cache (cacheKey m r) = none) :
    ((getAction db cache m r).1 =
      match findExactPermission db.permissions m r with
      | some p => some p.action
      | none => (findPermissionByPattern db.permissions m r).map Permission.action) ∧
    (∀ a p, matchesRoutePattern a p = true ↔ segMatchSpec a p) ∧
    matchesRoutePattern (str "/role-permissions/42/permissions")
      (str "/role-permissions/:roleId/permissions") = true ∧
    matchesRoutePattern (str "/role-permissions/42/other")
      (str "/role-permissions/:roleId/permissions") = false := by
  refine ⟨?_, matchesRoutePattern_iff, by rfl, by rfl⟩
  simp only [getAction, hmiss]
  cases he : findExactPermission db.permissions m r with
  | some p => simp [he]
  | none =>
    cases hp : findPermissionByPattern db.permissions m r with
    | some q => simp [he, hp]
    | none => simp [he, hp]

/-- A witness for C3 at the scenario store with an empty cache, with the
matcher-equivalence clause instantiated at the example pattern. -/
theorem C3_resolveAction_spec_witness :
    ((getAction c1Db [] (str "GET") (str "/users")).1 =
      match findExactPermission c1Db.permissions (str "GET") (str "/users") with
      | some p => some p.action
      | none =>
        (findPermissionByPattern c1Db.permissions (str "GET") (str "/users")).map
          Permission.action) ∧
    (matchesRoutePattern (str "/role-permissions/42/permissions")
        (str "/role-permissions/:roleId/permissions") = true ↔
      segMatchSpec (str "/role-permissions/42/permissions")
        (str "/role-permissions/:roleId/permissions")) ∧
    matchesRoutePattern (str "/role-permissions/42/permissions")
      (str "/role-permissions/:roleId/permissions") = true ∧
    matchesRoutePattern (str "/role-permissions/42/other")
      (str "/role-permissions/:roleId/permissions") = false :=
  ⟨(C3_resolveAction_spec c1Db [] (str "GET") (str "/users") (by rfl)).1,
   (C3_resolveAction_spec c1Db [] (str "GET") (str "/users") (by rfl)).2.1
     (str "/role-permissions/42/permissions")
     (str "/role-permissions/:roleId/permissions"),
   (C3_resolveAction_spec c1Db [] (str "GET") (str "/users") (by rfl)).2.2.1,
   (C3_resolveAction_spec c1Db [] (str "GET") (str "/users") (by rfl)).2.2.2⟩

/-- C4 counterexample: a cached negative result for `GET /users/123` is NOT
invalidated when the new permission `(GET, /users/:id, user:detail)` for the
same method is registered — `createPermission` deletes only the cache key of
the exact route it was called with — so the subsequent `getAction` for
`GET /users/123` returns the stale `none` although a fresh computation
against the updated permission set returns `user:detail`. -/
theorem C4_counterexample :
    (getAction ⟨[], [], [], []⟩ [] (str "GET") (str "/users/123")) =
      (none, [(cacheKey (str "GET") (str "/users/123"), [])]) ∧
    createPermission ⟨[], [], [], []⟩
        [(cacheKey (str "GET") (str "/users/123"), [])]
        (str "GET") (str "/users/:id") (str "user:detail") =
      .ok (⟨str "GET", str "/users/:id", str "user:detail"⟩,
           ⟨[], [⟨str "GET", str "/users/:id", str "user:detail"⟩], [], []⟩,
           [(cacheKey (str "GET") (str "/users/123"), [])]) ∧
    matchesRoutePattern (str "/users/123") (str "/users/:id") = true ∧
    (getAction ⟨[], [⟨str "GET", str "/users/:id", str "user:detail"⟩], [], []⟩
        [(cacheKey (str "GET") (str "/users/123"), [])]
        (str "GET") (str "/users/123")).1 = none ∧
    (getAction ⟨[], [⟨str "GET", str "/users/:id", str "user:detail"⟩], [], []⟩
        [] (str "GET") (str "/users/123")).1 = some (str "user:detail") :=
  ⟨rfl, rfl, rfl, rfl, rfl⟩

/-- C4 (amended): a successful `createPermission(m, r, a)` deletes exactly
the cache entry under key `m:r` — so `resolveAction(m, r)` itself is
recomputed against the updated permission set — while every cache entry
under any other key (other paths of method `m` included, cached negative
results included) is left untouched and can keep serving stale results; the
new permission is appended to the stored set. -/
theorem C4_cache_invalidation_amended (db : DB) (cache : Cache) (m r a : Str)
    (p : Permission) (db2 : DB) (cache2 : Cache)
    (h : createPermission db cache m r a = .ok (p, db2, cache2)) :
    lookupCache cache2 (cacheKey m r) = none ∧
    (∀ k, k ≠ cacheKey m r → lookupCache cache2 k = lookupCache cache k) ∧
    db2.permissions = db.permissions ++ [⟨m, r, a⟩] ∧
    p = ⟨m, r, a⟩ := by
  unfold createPermission at h
  split at h
  · cases h
  · split at h
    · cases h
    · simp only [Except.ok.injEq, Prod.mk.injEq] at h
      obtain ⟨hp, hdb, hc⟩ := h
      subst hp
      subst hdb
      subst hc
      refine ⟨lookupCache_deleteCache_self cache (cacheKey m r), ?_, rfl, rfl⟩
      intro k hk
      exact lookupCache_deleteCache_other cache (cacheKey m r) k hk

/-- A witness for C4 (amended) at a concrete registration, with the
other-keys clause instantiated at the counterexample's stale key. -/
theorem C4_cache_invalidation_amended_witness :
    lookupCache
      (deleteCache [(cacheKey (str "GET") (str "/users/123"), [])]
        (cacheKey (str "GET") (str "/users/:id")))
      (cacheKey (str "GET") (str "/users/:id")) = none ∧
    lookupCache
      (deleteCache [(cacheKey (str "GET") (str "/users/123"), [])]
        (cacheKey (str "GET") (str "/users/:id")))
      (cacheKey (str "GET") (str "/users/123")) =
      lookupCache [(cacheKey (str "GET") (str "/users/123"), [])]
        (cacheKey (str "GET") (str "/users/123")) ∧
    (⟨[], [⟨str "GET", str "/users/:id", str "user:detail"⟩], [], []⟩ : DB).permissions =
      ([] : List Permission) ++ [⟨str "GET", str "/users/:id", str "user:detail"⟩] ∧
    (⟨str "GET", str "/users/:id", str "user:detail"⟩ : Permission) =
      ⟨str "GET", str "/users/:id", str "user:detail"⟩ :=
  ⟨(C4_cache_invalidation_amended ⟨[], [], [], []⟩
      [(cacheKey (str "GET") (str "/users/123"), [])]
      (str "GET") (str "/users/:id") (str "user:detail")
      ⟨str "GET", str "/users/:id", str "user:detail"⟩
      ⟨[], [⟨str "GET", str "/users/:id", str "user:detail"⟩], [], []⟩
      (deleteCache [(cacheKey (str "GET") (str "/users/123"), [])]
        (cacheKey (str "GET") (str "/users/:id"))) (by rfl)).1,
   (C4_cache_invalidation_amended ⟨[], [], [], []⟩
      [(cacheKey (str "GET") (str "/users/123"), [])]
      (str "GET") (str "/users/:id") (str "user:detail")
      ⟨str "GET", str "/users/:id", str "user:detail"⟩
      ⟨[], [⟨str "GET", str "/users/:id", str "user:detail"⟩], [], []⟩
      (deleteCache [(cacheKey (str "GET") (str "/users/123"), [])]
        (cacheKey (str "GET") (str "/users/:id"))) (by rfl)).2.1
     (cacheKey (str "GET") (str "/users/123")) (by decide),
   (C4_cache_invalidation_amended ⟨[], [], [], []⟩
      [(cacheKey (str "GET") (str "/users/123"), [])]
      (str "GET") (str "/users/:id") (str "user:detail")
      ⟨str "GET", str "/users/:id", str "user:detail"⟩
      ⟨[], [⟨str "GET", str "/users/:id", str "user:detail"⟩], [], []⟩
      (deleteCache [(cacheKey (str "GET") (str "/users/123"), [])]
        (cacheKey (str "GET") (str "/users/:id"))) (by rfl)).2.2.1,
   (C4_cache_invalidation_amended ⟨[], [], [], []⟩
      [(cacheKey (str "GET") (str "/users/123"), [])]
      (str "GET") (str "/users/:id") (str "user:detail")
      ⟨str "GET", str "/users/:id", str "user:detail"⟩
      ⟨[], [⟨str "GET", str "/users/:id", str "user:detail"⟩], [], []⟩
      (deleteCache [(cacheKey (str "GET") (str "/users/123"), [])]
        (cacheKey (str "GET") (str "/users/:id"))) (by rfl)).2.2.2⟩

/-- C7: when the `(method, route, action)` triple is not already stored (so
the duplicate check cannot fire first), both `createPermission` and the
internal bootstrap path reject any action string that does not contain
exactly one `:` separator with the action-format validation error — and
since the error is thrown before the save, no permission record is
created (the returned error carries no updated store); the `UserList` and
`user:list:extra` examples are invalid. -/
theorem C7_action_format_rejected (db : DB) (cache : Cache) (m r a : Str)
    (hcount : a.count ':' ≠ 1)
    (hnew1 : (⟨m, r, a⟩ : Permission) ∉ db.permissions)
    (hnew2 : (⟨m, stripApiVersion r, a⟩ : Permission) ∉ db.permissions) :
    createPermission db cache m r a = .error .invalidActionFormat ∧
    findOrCreatePermissionInternal db m r a = .error .invalidActionFormat ∧
    actionFormatValid (str "UserList") = false ∧
    actionFormatValid (str "user:list:extra") = false := by
  have hvalid : actionFormatValid a = false := by
    cases hv : actionFormatValid a with
    | false => rfl
    | true => exact absurd ((actionFormatValid_iff a).mp hv) hcount
  refine ⟨?_, ?_, by rfl, by rfl⟩
  · have hany : (db.permissions.any fun q =>
        decide (q.method = m ∧ q.route = r ∧ q.action = a)) = false := by
      rw [List.any_eq_false]
      intro q hq
      simp only [decide_eq_true_eq, not_and]
      intro h1 h2 h3
      apply hnew1
      cases q
      subst h1
      subst h2
      subst h3
      exact hq
    unfold createPermission
    simp only [hany, Bool.false_eq_true, if_false]
    rw [if_pos hvalid]
  · have hfind : (db.permissions.find? fun q =>
        decide (q.method = m ∧ q.route = stripApiVersion r ∧ q.action = a)) = none := by
      rw [List.find?_eq_none]
      intro q hq
      simp only [decide_eq_true_eq, not_and]
      intro h1 h2 h3
      apply hnew2
      cases q
      subst h1
      subst h2
      subst h3
      exact hq
    simp only [findOrCreatePermissionInternal, hfind]
    rw [if_pos hvalid]

/-- A witness for C7 at an empty permission table with the colon-free action
`UserList`. -/
theorem C7_action_format_rejected_witness :
    createPermission ⟨[], [], [], []⟩ [] (str "GET") (str "/users") (str "UserList") =
      .error .invalidActionFormat ∧
    findOrCreatePermissionInternal ⟨[], [], [], []⟩ (str "GET") (str "/users")
      (str "UserList") = .error .invalidActionFormat ∧
    actionFormatValid (str "UserList") = false ∧
    actionFormatValid (str "user:list:extra") = false :=
  C7_action_format_rejected ⟨[], [], [], []⟩ [] (str "GET") (str "/users")
    (str "UserList") (by decide) (by simp) (by simp)

/-- C8 counterexample: a supplied refresh token that cannot be decoded does
NOT make `logout` fail with `BadRequest` — the undecodable refresh token is
silently skipped, the operation succeeds and only the access-token record is
inserted. -/
theorem C8_counterexample :
    logout ⟨[], [], [], []⟩
        (.signed ⟨some (str "u-1"), none, [], some .access, some 900⟩ (str "sig"))
        (some .undecodable) none =
      .ok ⟨[], [], [],
        [⟨.signed ⟨some (str "u-1"), none, [], some .access, some 900⟩ (str "sig"),
          900000, str "u-1", str "logout"⟩]⟩ := by
  rfl

/-- C8 (amended): `logout` decodes (never verifies) the supplied tokens; it
is rejected with `BadRequest` exactly when the ACCESS token cannot be
decoded or lacks truthy `exp`/`sub` fields — so already-expired but
decodable tokens log out fine; on success a revoked-token record carrying
the decoded expiry and subject is inserted for the access token, and for
the refresh token exactly when it decodes with truthy `exp`/`sub`, a
refresh token that cannot be decoded being skipped silently rather than
rejected. -/
theorem C8_logout_decode_only (db : DB) (acc : Jwt) (rfr : Option Jwt)
    (uid : Option Str) :
    (jwtDecode acc = none → logout db acc rfr uid = .error .invalidAccessToken) ∧
    (∀ d, jwtDecode acc = some d →
      (jsTruthyNat d.exp = false ∨ jsTruthyStr d.sub = false) →
      logout db acc rfr uid = .error .invalidAccessToken) ∧
    (∀ d, jwtDecode acc = some d → jsTruthyNat d.exp = true →
      jsTruthyStr d.sub = true →
      logout db acc rfr uid =
        .ok { db with blacklist := db.blacklist ++ [mkBlacklistRec acc d uid]
                ++ logoutRefreshRecs rfr uid }) := by
  refine ⟨?_, ?_, ?_⟩
  · intro hdec
    unfold logout
    rw [hdec]
  · intro d hdec htr
    unfold logout
    rw [hdec]
    dsimp only
    rw [if_pos htr]
  · intro d hdec he hs
    unfold logout
    rw [hdec]
    dsimp only
    rw [if_neg (by simp [he, hs])]
    cases rfr with
    | none => simp [logoutRefreshRecs]
    | some rt =>
      cases hrd : jwtDecode rt with
      | none => simp [logoutRefreshRecs, hrd]
      | some rd =>
        by_cases hb : (jsTruthyNat rd.exp && jsTruthyStr rd.sub) = true
        · simp [logoutRefreshRecs, hrd, hb]
        · simp only [Bool.not_eq_true] at hb
          simp [logoutRefreshRecs, hrd, hb]

/-- A witness for C8 (amended): an undecodable access token is rejected, an
access token without an expiry claim is rejected, and a decodable access
token together with an undecodable refresh token succeeds with only the
access record inserted. -/
theorem C8_logout_decode_only_witness :
    logout ⟨[], [], [], []⟩ .undecodable none none = .error .invalidAccessToken ∧
    logout ⟨[], [], [], []⟩
      (.signed ⟨some (str "u-1"), none, [], some .access, none⟩ (str "sig"))
      none none = .error .invalidAccessToken ∧
    logout ⟨[], [], [], []⟩
      (.signed ⟨some (str "u-1"), none, [], some .access, some 900⟩ (str "sig"))
      (some .undecodable) none =
      .ok ⟨[], [], [],
        ([] : List BlacklistRec) ++
          [mkBlacklistRec
            (.signed ⟨some (str "u-1"), none, [], some .access, some 900⟩ (str "sig"))
            ⟨some (str "u-1"), none, [], some .access, some 900⟩ none] ++
          logoutRefreshRecs (some .undecodable) none⟩ :=
  ⟨(C8_logout_decode_only ⟨[], [], [], []⟩ .undecodable none none).1 rfl,
   (C8_logout_decode_only ⟨[], [], [], []⟩
      (.signed ⟨some (str "u-1"), none, [], some .access, none⟩ (str "sig"))
      none none).2.1
     ⟨some (str "u-1"), none, [], some .access, none⟩ rfl (Or.inl rfl),
   (C8_logout_decode_only ⟨[], [], [], []⟩
      (.signed ⟨some (str "u-1"), none, [], some .access, some 900⟩ (str "sig"))
      (some .undecodable) none).2.2
     ⟨some (str "u-1"), none, [], some .access, some 900⟩ rfl (by decide) (by decide)⟩
